import Mathlib

/-!
Verification of the Orbit data-access / error-translation layer
(`src/orbit/repositories/cosmos.py`, `src/orbit/auth/strategy.py`,
`src/orbit/factory.py`, `src/orbit/config.py`) against its
natural-language specification.

The repository code is a thin, synchronous wrapper over the azure-cosmos
SDK.  We embed it shallowly:

* every repository operation becomes a total Lean function;
* the one remote SDK call an operation performs is abstracted as an
  oracle argument (a function of exactly the data the code sends to the
  SDK), whose result is an `SdkOutcome`, mirroring the exception classes
  the Python code dispatches on (`CosmosResourceNotFoundError` and
  `CosmosResourceExistsError` are subclasses of
  `CosmosHttpResponseError` with statuses 404 and 409, which matters
  when an operation has no dedicated `except` clause for them);
* Python `ValueError` raised by local validation is the spec's
  `InvalidInput` kind; the `orbit.exceptions` hierarchy supplies the
  remaining kinds;
* Python dictionaries that the claims inspect only through the presence
  and value of their `"id"` field are association lists `PyDict`.
-/

/-- Python dict payloads (items, container properties): association lists
from field name to an (otherwise uninterpreted) string value. -/
abbrev PyDict : Type := List (String × String)

/-- The domain error taxonomy of `src/orbit/exceptions.py`, plus
`invalidInput` for Python's built-in `ValueError` raised by local
validation (the spec's `InvalidInput` kind).  Each carries the
human-readable message the Python code builds. -/
inductive OrbitError : Type where
  | connectionFailure (msg : String)
  | authFailure (msg : String)
  | resourceNotFound (msg : String)
  | resourceExists (msg : String)
  | quotaExceeded (msg : String)
  | invalidPartitionKey (msg : String)
  | itemNotFound (msg : String)
  | partitionKeyMismatch (msg : String)
  | duplicateItem (msg : String)
  | invalidInput (msg : String)
deriving DecidableEq, Repr

/-- Outcome of one remote SDK call, as the Python `except` clauses see it:
`notFound` is `CosmosResourceNotFoundError` (HTTP 404), `alreadyExists`
is `CosmosResourceExistsError` (HTTP 409), `httpError` is any other
`CosmosHttpResponseError` with its status code and message. -/
inductive SdkOutcome (α : Type) : Type where
  | ok (v : α)
  | notFound (msg : String)
  | alreadyExists (msg : String)
  | httpError (status : Nat) (msg : String)
deriving DecidableEq

/-- Python `str.lower()` (the code only ever lowercases ASCII message
text before substring tests). -/
def pyLower (s : String) : String := String.mk (s.data.map Char.toLower)

/-- Does the first list occur at the head of the second? -/
def leadsWith : List Char → List Char → Bool
  | [], _ => true
  | _ :: _, [] => false
  | a :: as, b :: bs => a == b && leadsWith as bs

/-- Does the first list occur contiguously anywhere in the second? -/
def occursIn (needle : List Char) : List Char → Bool
  | [] => needle.isEmpty
  | b :: bs => leadsWith needle (b :: bs) || occursIn needle bs

/-- Python's `needle in hay` substring test on strings. -/
def pyContains (hay needle : String) : Bool := occursIn needle.data hay.data

/-- Python `s.startswith(t)`. -/
def pyStartsWith (s t : String) : Bool := leadsWith t.data s.data

/-- Python truthiness test `not s` for an optional string: `None` and the
empty string are falsy. -/
def pyFalsy : Option String → Bool
  | none => true
  | some s => s.isEmpty

/-- Has the dict an `"id"` field?  Embeds Python `"id" in item`. -/
def hasIdField (d : PyDict) : Bool := (d.lookup "id").isSome

/-- Python `item.get("id")`. -/
def getIdField (d : PyDict) : Option String := d.lookup "id"

/-- Classifier used to state "this operation never raises `InvalidInput`"
without negations: `true` exactly on an `invalidInput` error result. -/
def resultIsInvalidInput {α : Type} : Except OrbitError α → Bool
  | .error (.invalidInput _) => true
  | _ => false

namespace CosmosContainerRepository

/-! ### Item operations (`cosmos.py` lines 216-410)

Each operation takes an oracle for its single remote call, applied to
exactly the arguments the Python code passes to the SDK. -/

/-- Embeds `create_item` (`cosmos.py` 216-261).  Local validation in
source order: item must be a dict with an `"id"` field, then the
partition-key value must be non-empty, then the container name must be
non-empty.  The remote call is `container.create_item(body=item,
partition_key=partition_key_value)` on the container client for
`container_name`. -/
def create_item (container_name : String) (item : PyDict)
    (partition_key_value : String)
    (remote : String → PyDict → String → SdkOutcome PyDict) :
    Except OrbitError PyDict :=
  if !hasIdField item then
    .error (.invalidInput "Item must be a dictionary with 'id' field")
  else if partition_key_value.isEmpty then
    .error (.invalidInput "Partition key value cannot be empty")
  else if container_name.isEmpty then
    .error (.invalidInput "Container name cannot be empty")
  else
    match remote container_name item partition_key_value with
    | .ok created => .ok created
    | .alreadyExists _ =>
        .error (.duplicateItem
          ("Item with ID '" ++ ((getIdField item).getD "") ++
            "' already exists in partition"))
    | .notFound _ =>
        -- no dedicated clause: handled as CosmosHttpResponseError, status 404 ≠ 400
        .error (.connectionFailure ("Failed to create item: " ++ toString 404))
    | .httpError status _ =>
        if status == 400 then
          .error (.partitionKeyMismatch
            ("Partition key mismatch for item '" ++ ((getIdField item).getD "") ++ "'"))
        else
          .error (.connectionFailure ("Failed to create item: " ++ toString status))

/-- Embeds `get_item` (`cosmos.py` 263-298).  Performs no local
validation; the remote call is `container.read_item(item=item_id,
partition_key=partition_key_value)` on the container client for
`container_name`. -/
def get_item (container_name item_id partition_key_value : String)
    (remote : String → String → String → SdkOutcome PyDict) :
    Except OrbitError PyDict :=
  match remote container_name item_id partition_key_value with
  | .ok item => .ok item
  | .notFound _ =>
      .error (.itemNotFound
        ("Item '" ++ item_id ++ "' not found in container '" ++ container_name ++ "'"))
  | .alreadyExists _ =>
      -- no dedicated clause: handled as CosmosHttpResponseError, status 409 ≠ 400
      .error (.connectionFailure
        ("Failed to get item '" ++ item_id ++ "': " ++ toString 409))
  | .httpError status _ =>
      if status == 400 then
        .error (.partitionKeyMismatch ("Partition key mismatch for item '" ++ item_id ++ "'"))
      else
        .error (.connectionFailure
          ("Failed to get item '" ++ item_id ++ "': " ++ toString status))

/-- Embeds `update_item` (`cosmos.py` 300-345).  Local validation: the
item dict's `"id"` field must equal the `item_id` argument (upsert
semantics otherwise).  The remote call is `container.upsert_item(body=item,
partition_key=partition_key_value)`. -/
def update_item (container_name item_id : String) (item : PyDict)
    (partition_key_value : String)
    (remote : String → String → PyDict → String → SdkOutcome PyDict) :
    Except OrbitError PyDict :=
  if getIdField item != some item_id then
    .error (.invalidInput
      ("Item 'id' field must match item_id parameter '" ++ item_id ++ "'"))
  else
    match remote container_name item_id item partition_key_value with
    | .ok updated => .ok updated
    | .notFound _ =>
        -- no dedicated clause: CosmosHttpResponseError with status 404 ≠ 400
        .error (.connectionFailure
          ("Failed to update item '" ++ item_id ++ "': " ++ toString 404))
    | .alreadyExists _ =>
        .error (.connectionFailure
          ("Failed to update item '" ++ item_id ++ "': " ++ toString 409))
    | .httpError status _ =>
        if status == 400 then
          .error (.partitionKeyMismatch ("Partition key mismatch for item '" ++ item_id ++ "'"))
        else
          .error (.connectionFailure
            ("Failed to update item '" ++ item_id ++ "': " ++ toString status))

/-- Embeds `delete_item` (`cosmos.py` 347-378).  No local validation; a
not-found outcome of the remote `container.delete_item(item=item_id,
partition_key=partition_key_value)` call is swallowed (idempotent
delete). -/
def delete_item (container_name item_id partition_key_value : String)
    (remote : String → String → String → SdkOutcome Unit) :
    Except OrbitError Unit :=
  match remote container_name item_id partition_key_value with
  | .ok _ => .ok ()
  | .notFound _ => .ok ()
  | .alreadyExists _ =>
      -- no dedicated clause: CosmosHttpResponseError with status 409 ≠ 400
      .error (.connectionFailure
        ("Failed to delete item '" ++ item_id ++ "': " ++ toString 409))
  | .httpError status _ =>
      if status == 400 then
        .error (.partitionKeyMismatch ("Partition key mismatch for item '" ++ item_id ++ "'"))
      else
        .error (.connectionFailure
          ("Failed to delete item '" ++ item_id ++ "': " ++ toString status))

/-- Embeds `list_items` (`cosmos.py` 380-410).  Local validation:
`max_count` (a Python `int`, so modelled as `Int`) must be positive.
The remote call is `container.query_items(query="SELECT * FROM c",
max_item_count=max_count)` on the container client for `container_name`;
its enumeration yields the returned list. -/
def list_items (container_name : String) (max_count : Int)
    (remote : String → Int → SdkOutcome (List PyDict)) :
    Except OrbitError (List PyDict) :=
  if max_count ≤ 0 then
    .error (.invalidInput "max_count must be a positive integer")
  else
    match remote container_name max_count with
    | .ok items => .ok items
    | .notFound _ =>
        -- CosmosHttpResponseError with status 404
        .error (.connectionFailure ("Failed to list items: " ++ toString 404))
    | .alreadyExists _ =>
        .error (.connectionFailure ("Failed to list items: " ++ toString 409))
    | .httpError status _ =>
        .error (.connectionFailure ("Failed to list items: " ++ toString status))

end CosmosContainerRepository

/-! ### Container name validation (`cosmos.py` lines 36-37 and 175-188)

The source compiles `CONTAINER_NAME_PATTERN = re.compile(r"^[a-zA-Z0-9-]{1,255}$")`
and tests it with `.match(name)`.  Python's `$` matches at the end of the
string *or just before one newline at the end of the string*, so the
compiled pattern accepts a body of 1-255 name characters optionally
followed by exactly one trailing `'\n'`.  We embed that semantics
exactly. -/

/-- A character of the class `[a-zA-Z0-9-]`. -/
def isNameChar (c : Char) : Bool := c.isAlpha || c.isDigit || c == '-'

/-- The pattern `^[A-Za-z0-9-]{1,255}$` read as an exact anchor (the
spec's reading): 1 to 255 characters, all in the class. -/
def containerNameSpecPattern (s : String) : Bool :=
  decide (1 ≤ s.data.length) && decide (s.data.length ≤ 255) && s.data.all isNameChar

/-- Drop one trailing newline, as Python's `$` anchor allows. -/
def stripOneTrailingNewline (s : String) : String :=
  if s.data.getLast? == some '\n' then String.mk s.data.dropLast else s

/-- `CONTAINER_NAME_PATTERN.match(name)` is truthy: Python `re.match`
anchors at the start, and `$` accepts the true end of the string or the
position just before a single final newline. -/
def containerNamePatternMatch (s : String) : Bool :=
  containerNameSpecPattern (stripOneTrailingNewline s)

namespace CosmosContainerRepository

/-- Embeds `_validate_container_name` (`cosmos.py` 175-188) as a result:
`some error` when the Python method raises `ValueError`, `none` when it
returns. -/
def validate_container_name (name : String) : Option OrbitError :=
  if !containerNamePatternMatch name then
    some (.invalidInput
      ("Invalid container name '" ++ name ++
        "'. Must be alphanumeric with hyphens, max 255 characters."))
  else none

/-- Embeds `_validate_partition_key_path` (`cosmos.py` 190-203). -/
def validate_partition_key_path (path : String) : Option OrbitError :=
  if !pyStartsWith path "/" then
    some (.invalidPartitionKey
      ("Invalid partition key path '" ++ path ++
        "'. Partition key must start with '/'."))
  else none

/-! ### Container operations (`cosmos.py` lines 58-173) -/

/-- Embeds `create_container` (`cosmos.py` 77-121).  Validates the name,
then the partition-key path, then performs the remote
`database.create_container(id=name, partition_key=..., offer_throughput=throughput)`
call (the oracle receives exactly those three arguments and stands for
the call plus the `container.read()` on its result). -/
def create_container (name partition_key_path : String) (throughput : Nat)
    (remote : String → String → Nat → SdkOutcome PyDict) :
    Except OrbitError PyDict :=
  match validate_container_name name with
  | some e => .error e
  | none =>
  match validate_partition_key_path partition_key_path with
  | some e => .error e
  | none =>
  match remote name partition_key_path throughput with
  | .ok props => .ok props
  | .alreadyExists _ =>
      .error (.resourceExists ("Container '" ++ name ++ "' already exists"))
  | .notFound m =>
      -- no dedicated clause: CosmosHttpResponseError, status 404; the
      -- handler still applies its `status == 429 or "quota" in str(e).lower()` test
      if pyContains (pyLower m) "quota" then
        .error (.quotaExceeded
          ("Throughput quota exceeded when creating container '" ++ name ++
            "'. Consider reducing throughput or upgrading account."))
      else
        .error (.connectionFailure
          ("Failed to create container '" ++ name ++ "': " ++ toString 404))
  | .httpError status m =>
      if status == 429 || pyContains (pyLower m) "quota" then
        .error (.quotaExceeded
          ("Throughput quota exceeded when creating container '" ++ name ++
            "'. Consider reducing throughput or upgrading account."))
      else
        .error (.connectionFailure
          ("Failed to create container '" ++ name ++ "': " ++ toString status))

/-- Embeds `delete_container` (`cosmos.py` 123-145).  No local
validation; a not-found outcome of the remote
`database.delete_container(name)` call is swallowed (idempotent
delete). -/
def delete_container (name : String) (remote : String → SdkOutcome Unit) :
    Except OrbitError Unit :=
  match remote name with
  | .ok _ => .ok ()
  | .notFound _ => .ok ()
  | .alreadyExists _ =>
      -- no dedicated clause: CosmosHttpResponseError, status 409
      .error (.connectionFailure
        ("Failed to delete container '" ++ name ++ "': " ++ toString 409))
  | .httpError status _ =>
      .error (.connectionFailure
        ("Failed to delete container '" ++ name ++ "': " ++ toString status))

/-- Embeds `get_container_properties` (`cosmos.py` 147-173).  No local
validation; the remote call is
`database.get_container_client(name).read()`. -/
def get_container_properties (name : String)
    (remote : String → SdkOutcome PyDict) : Except OrbitError PyDict :=
  match remote name with
  | .ok props => .ok props
  | .notFound _ =>
      .error (.resourceNotFound ("Container '" ++ name ++ "' not found"))
  | .alreadyExists _ =>
      .error (.connectionFailure
        ("Failed to get properties for container '" ++ name ++ "': " ++ toString 409))
  | .httpError status _ =>
      .error (.connectionFailure
        ("Failed to get properties for container '" ++ name ++ "': " ++ toString status))

end CosmosContainerRepository

/-! ### Client provider (`src/orbit/auth/strategy.py`, lines 27-75)

`ConnectionStringAuthStrategy.get_client` builds a `CosmosClient` from
the configured connection string.  The one external call,
`CosmosClient.from_connection_string(connection_string)`, is abstracted
as an oracle whose outcome mirrors the `except` clauses of the source:
a `ValueError` (parse/format failure), a `CosmosHttpResponseError` with
a status code and a `.message`, or any other exception with its `str`
text.  Client handles are modelled as `Nat` tokens. -/

/-- Outcome of `CosmosClient.from_connection_string`, as the `except`
clauses of `get_client` see it. -/
inductive ConnectOutcome : Type where
  | ok (handle : Nat)
  | valueError (msg : String)
  | httpError (status : Nat) (msg : String)
  | otherError (msg : String)
deriving DecidableEq

/-- Python `not connection_string or not connection_string.strip()`:
empty or whitespace-only. -/
def pyBlank (s : String) : Bool := s.isEmpty || s.data.all Char.isWhitespace

/-- The test the source applies to an unclassified exception's message:
`"connection" in error_message or "network" in error_message` after
lowercasing. -/
def msgIndicatesNetworkProblem (m : String) : Bool :=
  pyContains (pyLower m) "connection" || pyContains (pyLower m) "network"

namespace ConnectionStringAuthStrategy

/-- Embeds `get_client` (`strategy.py` 31-75).  Returns the list of log
lines written (info level) together with the result.  The
`connection_string` field of the settings is the only secret-bearing
input; `connect` stands for `CosmosClient.from_connection_string`. -/
def get_client (connection_string : Option String)
    (connect : String → ConnectOutcome) :
    List String × Except OrbitError Nat :=
  match connection_string with
  | none => ([], .error (.authFailure "Connection string not provided."))
  | some cs =>
    if pyBlank cs then
      ([], .error (.authFailure
        "Connection string is empty. Provide valid connection string."))
    else
      let logs := ["Initializing connection string auth strategy."]
      match connect cs with
      | .ok handle => (logs, .ok handle)
      | .valueError m =>
          (logs, .error (.authFailure ("Malformed connection string: " ++ m)))
      | .httpError status m =>
          if status == 401 then
            (logs, .error (.authFailure
              "Authentication failed. Verify connection string credentials."))
          else
            (logs, .error (.connectionFailure
              ("Failed to connect to Cosmos DB: " ++ m)))
      | .otherError m =>
          if msgIndicatesNetworkProblem m then
            (logs, .error (.connectionFailure
              ("Network error connecting to Cosmos DB: " ++ m)))
          else
            (logs, .error (.authFailure
              ("Unexpected error during authentication: " ++ m)))

end ConnectionStringAuthStrategy

/-! ### Settings (`src/orbit/config.py`)

`OrbitSettings` is a dataclass whose declared fields are exactly
`connection_string`, `endpoint` and `key` (lines 20-24).  Note the
factory (`factory.py` line 46) and the unit tests
(`tests/test_config.py`, `tests/test_factory.py`) additionally expect a
`database_name` field that this dataclass does not declare. -/

/-- The declared field names of the `OrbitSettings` dataclass in
`src/orbit/config.py` (lines 20-24), in declaration order. -/
def orbitSettingsFields : List String :=
  ["connection_string", "endpoint", "key"]

/-- The field names of the Settings object per the spec's inbound
interface (spec section 6: `{connection_string: string?, endpoint:
string?, key: string?, database_name: string?}`). -/
def settingsSpecFields : List String :=
  ["connection_string", "endpoint", "key", "database_name"]

/-- Modelled from the spec: the Settings record of spec sections 3 and 6,
carrying the optional `database_name` that `src/orbit/config.py` omits
but `src/orbit/factory.py` (line 46) and the unit tests
(`tests/test_config.py`, `tests/test_factory.py`) require. -/
structure SettingsModel where
  connection_string : Option String := none
  endpoint : Option String := none
  key : Option String := none
  database_name : Option String := none
deriving DecidableEq

/-! ### Repository factory (`src/orbit/factory.py`)

Python object identity (the `is` operator, used by the spec's
reference-equality properties) is modelled with an allocation counter:
every object the factory creates — the `CosmosClient` produced by the
auth strategy and each `CosmosContainerRepository` — receives the next
fresh token.  `World.providerCalls` counts invocations of the client
provider.  The provider's own failure modes are verified separately on
`ConnectionStringAuthStrategy.get_client`; here its success path is the
allocation of a fresh client object. -/

/-- Allocation state for object identities, plus the count of client
provider invocations. -/
structure World where
  nextId : Nat
  providerCalls : Nat
deriving DecidableEq

/-- Allocate a fresh object identity. -/
def World.alloc (w : World) : Nat × World :=
  (w.nextId, { w with nextId := w.nextId + 1 })

/-- Invoke the client provider: allocates the fresh `CosmosClient`
object and counts the invocation. -/
def World.invokeProvider (w : World) : Nat × World :=
  (w.nextId, { nextId := w.nextId + 1, providerCalls := w.providerCalls + 1 })

/-- Mutable state of one `RepositoryFactory` instance: `_database_name`
(copied from the settings at `__init__`) and the `_client` cache,
`None` until first use. -/
structure FactoryState where
  databaseName : Option String
  client : Option Nat
deriving DecidableEq

/-- Embeds `RepositoryFactory.__init__` (`factory.py` 38-46). -/
def RepositoryFactory.init (settings : SettingsModel) : FactoryState :=
  { databaseName := settings.database_name, client := none }

/-- The constant `DATABASE_NAME_MISSING_ERROR` (`factory.py` 18-20). -/
def databaseNameMissingError : String :=
  "Database name not configured. Set ORBIT_DATABASE_NAME environment variable."

/-- A `CosmosContainerRepository` object as constructed by the factory:
its own object identity, the shared client handle, and the database
name. -/
structure RepoObj where
  objId : Nat
  client : Nat
  databaseName : String
deriving DecidableEq

namespace RepositoryFactory

/-- Embeds `_get_client` (`factory.py` 48-70): if the cache is empty,
validate the database name (Python falsiness: `None` or `""`), then
invoke the client provider and cache the handle; otherwise return the
cached handle. -/
def get_client_cached (st : FactoryState) (w : World) :
    Except OrbitError Nat × FactoryState × World :=
  match st.client with
  | some c => (.ok c, st, w)
  | none =>
      if pyFalsy st.databaseName then
        (.error (.invalidInput databaseNameMissingError), st, w)
      else
        let (h, w') := w.invokeProvider
        (.ok h, { st with client := some h }, w')

/-- Embeds `get_container_repository` (`factory.py` 72-85): obtain the
(cached) client, re-check the database name, construct a fresh
`CosmosContainerRepository`. -/
def get_container_repository (st : FactoryState) (w : World) :
    Except OrbitError RepoObj × FactoryState × World :=
  match get_client_cached st w with
  | (.error e, st', w') => (.error e, st', w')
  | (.ok c, st', w') =>
      match st'.databaseName with
      | none => (.error (.invalidInput databaseNameMissingError), st', w')
      | some db =>
          if db.isEmpty then
            (.error (.invalidInput databaseNameMissingError), st', w')
          else
            let (rid, w'') := w'.alloc
            (.ok { objId := rid, client := c, databaseName := db }, st', w'')

/-- Embeds `get_item_repository` (`factory.py` 87-104), whose body is
identical to `get_container_repository`. -/
def get_item_repository (st : FactoryState) (w : World) :
    Except OrbitError RepoObj × FactoryState × World :=
  match get_client_cached st w with
  | (.error e, st', w') => (.error e, st', w')
  | (.ok c, st', w') =>
      match st'.databaseName with
      | none => (.error (.invalidInput databaseNameMissingError), st', w')
      | some db =>
          if db.isEmpty then
            (.error (.invalidInput databaseNameMissingError), st', w')
          else
            let (rid, w'') := w'.alloc
            (.ok { objId := rid, client := c, databaseName := db }, st', w'')

end RepositoryFactory

/-! ### A deterministic healthy service, for the idempotence law

The double-delete law quantifies over service states; the remote
outcomes are those of a service that is reachable (never a transport
error) and deletes deterministically: deleting a present entity removes
it and answers ok, deleting an absent one answers not-found. -/

/-- Remote service state: the container names that exist and the items
present as (container, partition key, item id) triples. -/
structure ServiceState where
  containers : List String
  items : List (String × String × String)
deriving DecidableEq

/-- The service's `delete_container` semantics. -/
def svcDeleteContainer (st : ServiceState) (name : String) :
    SdkOutcome Unit × ServiceState :=
  if st.containers.contains name then
    (.ok (), { st with containers := st.containers.filter (fun c => c != name) })
  else
    (.notFound "Entity with the specified id does not exist in the system", st)

/-- The service's `delete_item` semantics. -/
def svcDeleteItem (st : ServiceState) (cn pk id : String) :
    SdkOutcome Unit × ServiceState :=
  if st.items.contains (cn, pk, id) then
    (.ok (), { st with items := st.items.filter (fun t => t != (cn, pk, id)) })
  else
    (.notFound "Entity with the specified id does not exist in the system", st)

/-- One repository `delete_container` call against the healthy service:
the repository code run on the outcome the service produces, paired with
the service state it leaves behind. -/
def deleteContainerStep (st : ServiceState) (name : String) :
    Except OrbitError Unit × ServiceState :=
  let (out, st') := svcDeleteContainer st name
  (CosmosContainerRepository.delete_container name (fun _ => out), st')

/-- One repository `delete_item` call against the healthy service. -/
def deleteItemStep (st : ServiceState) (cn id pk : String) :
    Except OrbitError Unit × ServiceState :=
  let (out, st') := svcDeleteItem st cn pk id
  (CosmosContainerRepository.delete_item cn id pk (fun _ _ _ => out), st')

/-! ## Claims -/

open CosmosContainerRepository in
/-- C1: for every container name and every `max_count`, `list_items`
raises `InvalidInput` when `max_count ≤ 0` regardless of the remote
service (so both `0` and `-1` raise, before any remote call); for every
positive `max_count`, `max_count` is passed through unchanged to the
remote query, and whenever the remote bounded scan honours it (returns
at most `max_count` items, the spec's remote-call semantics), the
returned sequence has length at most `max_count`. -/
theorem orbit_C1_list_items_max_count (cn : String) (mc : Int)
    (remote : String → Int → SdkOutcome (List PyDict)) (sample : List PyDict) :
    (mc ≤ 0 →
      list_items cn mc remote =
        .error (.invalidInput "max_count must be a positive integer")) ∧
    (0 < mc →
      (∀ items, remote cn mc = .ok items → (items.length : Int) ≤ mc) →
      ∀ res, list_items cn mc remote = .ok res → (res.length : Int) ≤ mc) ∧
    (0 < mc →
      list_items cn mc
        (fun n k => if n == cn && k == mc then .ok sample else .httpError 500 "boom") =
        .ok sample) := by
  refine ⟨fun h => ?_, fun hpos hbound res hres => ?_, fun hpos => ?_⟩
  · simp [list_items, h]
  · have hne : ¬ mc ≤ 0 := not_le.mpr hpos
    cases hout : remote cn mc with
    | ok v =>
        simp [list_items, hne, hout] at hres
        subst hres
        exact hbound _ hout
    | notFound m => simp [list_items, hne, hout] at hres
    | alreadyExists m => simp [list_items, hne, hout] at hres
    | httpError st m => simp [list_items, hne, hout] at hres
  · have hne : ¬ mc ≤ 0 := not_le.mpr hpos
    simp [list_items, hne]

open CosmosContainerRepository in
/-- Witness for C1: `max_count = 0` and `max_count = -1` raise
`InvalidInput` on container `"c"`, and with `max_count = 50` and a
remote scan answering three items the returned length is at most 50. -/
theorem orbit_C1_list_items_max_count_witness :
    list_items "c" 0 (fun _ _ => .ok []) =
      .error (.invalidInput "max_count must be a positive integer") ∧
    list_items "c" (-1) (fun _ _ => .ok []) =
      .error (.invalidInput "max_count must be a positive integer") ∧
    (([[("id", "a")], [("id", "b")], [("id", "c")]].length : Int) ≤ 50) := by
  refine ⟨?_, ?_, ?_⟩
  · exact (orbit_C1_list_items_max_count "c" 0 (fun _ _ => .ok []) []).1 (by decide)
  · exact (orbit_C1_list_items_max_count "c" (-1) (fun _ _ => .ok []) []).1 (by decide)
  · exact (orbit_C1_list_items_max_count "c" 50
      (fun n k => if n == "c" && k == 50
        then .ok [[("id", "a")], [("id", "b")], [("id", "c")]]
        else .httpError 500 "boom")
      [[("id", "a")], [("id", "b")], [("id", "c")]]).2.1 (by decide)
      (by intro items h; simp at h; subst h; decide)
      [[("id", "a")], [("id", "b")], [("id", "c")]]
      ((orbit_C1_list_items_max_count "c" 50
        (fun n k => if n == "c" && k == 50
          then .ok [[("id", "a")], [("id", "b")], [("id", "c")]]
          else .httpError 500 "boom")
        [[("id", "a")], [("id", "b")], [("id", "c")]]).2.2 (by decide))

open CosmosContainerRepository in
/-- Counterexample to C2: a `get_item` call whose container name and
partition-key value are both empty does not raise `InvalidInput` — no
local validation runs, the empty values reach the remote call, and the
remote result is returned. -/
theorem orbit_C2_counterexample :
    resultIsInvalidInput
      (get_item "" "item-1" "" (fun _ _ _ => .ok [("id", "item-1")])) = false ∧
    get_item "" "item-1" "" (fun _ _ _ => .ok [("id", "item-1")]) =
      .ok [("id", "item-1")] := by
  exact ⟨rfl, rfl⟩

open CosmosContainerRepository in
/-- C2 as amended: only `create_item` validates the container name and
the partition-key value for emptiness (partition key first, then
container name, each raising `InvalidInput` regardless of the remote
service); `get_item`, `update_item` (with a payload whose `id` matches),
`delete_item` and `list_items` perform no such validation and pass empty
values through to the remote call. -/
theorem orbit_C2_amended_item_validation (cn id pk : String) (item v : PyDict)
    (remote : String → PyDict → String → SdkOutcome PyDict) :
    (hasIdField item = true →
      create_item cn item "" remote =
        .error (.invalidInput "Partition key value cannot be empty")) ∧
    (hasIdField item = true → pk.isEmpty = false →
      create_item "" item pk remote =
        .error (.invalidInput "Container name cannot be empty")) ∧
    (get_item "" id "" (fun _ _ _ => .ok v) = .ok v) ∧
    (update_item "" id [("id", id)] "" (fun _ _ _ _ => .ok v) = .ok v) ∧
    (delete_item "" id "" (fun _ _ _ => .ok ()) = .ok ()) ∧
    (list_items "" 5 (fun _ _ => .ok [v]) = .ok [v]) := by
  have he : "".isEmpty = true := rfl
  refine ⟨fun hid => ?_, fun hid hpk => ?_, rfl, ?_, rfl, ?_⟩
  · simp [create_item, hid, he]
  · simp [create_item, hid, hpk, he]
  · simp [update_item, getIdField]
  · simp [list_items]

open CosmosContainerRepository in
/-- Witness for the amended C2: with item `{"id": "x"}`, an empty
partition-key value raises `InvalidInput` ("Partition key value cannot
be empty"), and an empty container name with partition key `"p"` raises
`InvalidInput` ("Container name cannot be empty"). -/
theorem orbit_C2_amended_item_validation_witness :
    create_item "c" [("id", "x")] "" (fun _ _ _ => .ok []) =
      .error (.invalidInput "Partition key value cannot be empty") ∧
    create_item "" [("id", "x")] "p" (fun _ _ _ => .ok []) =
      .error (.invalidInput "Container name cannot be empty") := by
  refine ⟨?_, ?_⟩
  · exact (orbit_C2_amended_item_validation "c" "x" "p" [("id", "x")] []
      (fun _ _ _ => .ok [])).1 (by decide)
  · exact (orbit_C2_amended_item_validation "c" "x" "p" [("id", "x")] []
      (fun _ _ _ => .ok [])).2.1 (by decide) (by decide)

/-- C4: delete operations are idempotent.  A not-found outcome of the
remote delete call is swallowed by `delete_container` and `delete_item`
(the operation returns normally), and against the deterministic healthy
service two consecutive deletes of the same container, and of the same
item, both succeed from every service state. -/
theorem orbit_C4_delete_idempotent (st : ServiceState)
    (name cn id pk m : String) :
    (CosmosContainerRepository.delete_container name
      (fun _ => .notFound m) = .ok ()) ∧
    (CosmosContainerRepository.delete_item cn id pk
      (fun _ _ _ => .notFound m) = .ok ()) ∧
    ((deleteContainerStep st name).1 = .ok ()) ∧
    ((deleteContainerStep (deleteContainerStep st name).2 name).1 = .ok ()) ∧
    ((deleteItemStep st cn id pk).1 = .ok ()) ∧
    ((deleteItemStep (deleteItemStep st cn id pk).2 cn id pk).1 = .ok ()) := by
  have hc : ∀ s : ServiceState, (deleteContainerStep s name).1 = .ok () := by
    intro s
    by_cases h : name ∈ s.containers <;>
      simp [deleteContainerStep, svcDeleteContainer,
        CosmosContainerRepository.delete_container, h]
  have hi : ∀ s : ServiceState, (deleteItemStep s cn id pk).1 = .ok () := by
    intro s
    by_cases h : (cn, pk, id) ∈ s.items <;>
      simp [deleteItemStep, svcDeleteItem,
        CosmosContainerRepository.delete_item, h]
  exact ⟨rfl, rfl, hc st, hc _, hi st, hi _⟩

open CosmosContainerRepository in
/-- C9: `delete_container` and `get_container_properties` never raise
`InvalidInput` for the name — whatever the remote outcome — and forward
the name unvalidated to the remote call (a remote that answers only for
exactly that name is reached and its answer returned); by contrast,
`create_container` rejects any name the compiled pattern does not match,
regardless of the remote service. -/
theorem orbit_C9_no_name_validation_on_delete_and_props (name : String)
    (props : PyDict) (out : SdkOutcome Unit) (outP : SdkOutcome PyDict) :
    (resultIsInvalidInput (delete_container name (fun _ => out)) = false) ∧
    (resultIsInvalidInput (get_container_properties name (fun _ => outP)) = false) ∧
    (delete_container name
      (fun n => if n == name then .ok () else .httpError 500 "boom") = .ok ()) ∧
    (get_container_properties name
      (fun n => if n == name then .ok props else .httpError 500 "boom") = .ok props) ∧
    (containerNamePatternMatch name = false →
      ∀ remote, resultIsInvalidInput (create_container name "/pk" 400 remote) = true) := by
  refine ⟨?_, ?_, ?_, ?_, fun hbad remote => ?_⟩
  · cases out <;> simp [delete_container, resultIsInvalidInput]
  · cases outP <;> simp [get_container_properties, resultIsInvalidInput]
  · simp [delete_container]
  · simp [get_container_properties]
  · simp [create_container, validate_container_name, hbad, resultIsInvalidInput]

open CosmosContainerRepository in
/-- Witness for C9 at the pattern-violating name `"bad name!"`: the
remote delete is reached with exactly that name and succeeds, while
`create_container` rejects the same name with `InvalidInput`. -/
theorem orbit_C9_no_name_validation_witness :
    delete_container "bad name!"
      (fun n => if n == "bad name!" then .ok () else .httpError 500 "boom") = .ok () ∧
    resultIsInvalidInput
      (create_container "bad name!" "/pk" 400 (fun _ _ _ => .ok [])) = true := by
  refine ⟨?_, ?_⟩
  · exact (orbit_C9_no_name_validation_on_delete_and_props "bad name!" []
      (.ok ()) (.ok [])).2.2.1
  · exact (orbit_C9_no_name_validation_on_delete_and_props "bad name!" []
      (.ok ()) (.ok [])).2.2.2.2 (by decide) (fun _ _ _ => .ok [])

/-- Helper: the value of `getLast?` is a member of the list. -/
theorem getLast?_mem_helper {α : Type} : ∀ (l : List α) (a : α),
    l.getLast? = some a → a ∈ l
  | [], _, h => by simp at h
  | [b], a, h => by
      simp only [List.getLast?_singleton, Option.some.injEq] at h
      simp [h]
  | b :: c :: t, a, h => by
      rw [List.getLast?_cons_cons] at h
      exact List.mem_cons_of_mem _ (getLast?_mem_helper (c :: t) a h)

open CosmosContainerRepository in
/-- Counterexample to C6: the name `"abc\n"` does not match
`^[A-Za-z0-9-]{1,255}$` (it contains a newline), yet `create_container`
accepts it and returns the remote result: the compiled Python pattern is
tested with `re.match`, whose `$` also matches just before a single
trailing newline. -/
theorem orbit_C6_counterexample :
    containerNameSpecPattern "abc\n" = false ∧
    create_container "abc\n" "/pk" 400 (fun _ _ _ => .ok []) = .ok [] := by
  refine ⟨by decide, ?_⟩
  have hmatch : containerNamePatternMatch "abc\n" = true := by decide
  have hpk : pyStartsWith "/pk" "/" = true := by decide
  simp [create_container, validate_container_name, validate_partition_key_path,
    hmatch, hpk]

open CosmosContainerRepository in
/-- C6 as amended: `create_container` raises `InvalidInput` for the name
exactly when the name, after removing a single trailing newline if
present, fails `^[A-Za-z0-9-]{1,255}$` (Python `re.match`'s `$` also
accepts a position just before one final newline); in particular every
name matching the pattern as written is accepted, and every rejection
happens before any remote call (the result is the same for every remote
service). -/
theorem orbit_C6_amended_container_name_validation
    (name pkPath : String) (thr : Nat)
    (remote : String → String → Nat → SdkOutcome PyDict) :
    (containerNameSpecPattern (stripOneTrailingNewline name) = false →
      create_container name pkPath thr remote =
        .error (.invalidInput
          ("Invalid container name '" ++ name ++
            "'. Must be alphanumeric with hyphens, max 255 characters."))) ∧
    (containerNameSpecPattern (stripOneTrailingNewline name) = true →
      resultIsInvalidInput (create_container name pkPath thr remote) = false) ∧
    (containerNameSpecPattern name = true →
      containerNamePatternMatch name = true) := by
  refine ⟨fun hbad => ?_, fun hgood => ?_, fun hspec => ?_⟩
  · simp [create_container, validate_container_name, containerNamePatternMatch, hbad]
  · have hv1 : validate_container_name name = none := by
      simp [validate_container_name, containerNamePatternMatch, hgood]
    by_cases hp : pyStartsWith pkPath "/"
    · have hv2 : validate_partition_key_path pkPath = none := by
        simp [validate_partition_key_path, hp]
      cases hout : remote name pkPath thr with
      | ok v => simp [create_container, hv1, hv2, hout, resultIsInvalidInput]
      | notFound m =>
          simp only [create_container, hv1, hv2, hout]
          split <;> simp [resultIsInvalidInput]
      | alreadyExists m =>
          simp [create_container, hv1, hv2, hout, resultIsInvalidInput]
      | httpError st m =>
          simp only [create_container, hv1, hv2, hout]
          split <;> simp [resultIsInvalidInput]
    · have hv2 : validate_partition_key_path pkPath =
          some (.invalidPartitionKey
            ("Invalid partition key path '" ++ pkPath ++
              "'. Partition key must start with '/'.")) := by
        simp [validate_partition_key_path, hp]
      simp [create_container, hv1, hv2, resultIsInvalidInput]
  · unfold containerNamePatternMatch stripOneTrailingNewline
    have hall : name.data.all isNameChar = true := by
      unfold containerNameSpecPattern at hspec
      simp only [Bool.and_eq_true] at hspec
      exact hspec.2
    have hstrip : (name.data.getLast? == some '\n') = false := by
      rcases hl : name.data.getLast? with _ | c
      · rfl
      · have hmem : c ∈ name.data := getLast?_mem_helper _ _ hl
        have hc : isNameChar c = true := List.all_eq_true.mp hall c hmem
        have hcn : c ≠ '\n' := by
          intro he
          subst he
          simp [isNameChar] at hc
        simp [hcn]
    simp [hstrip, hspec]

open CosmosContainerRepository in
/-- Witness for the amended C6: `"bad name!"` strips to itself, fails the
pattern, and is rejected with `InvalidInput` for every remote; `"abc"`
matches the pattern as written and is accepted by the compiled
pattern. -/
theorem orbit_C6_amended_container_name_validation_witness :
    create_container "bad name!" "/pk" 400 (fun _ _ _ => .ok []) =
      .error (.invalidInput
        ("Invalid container name 'bad name!'. " ++
          "Must be alphanumeric with hyphens, max 255 characters.")) ∧
    resultIsInvalidInput
      (create_container "good-1" "/pk" 400 (fun _ _ _ => .ok [])) = false ∧
    containerNamePatternMatch "abc" = true := by
  refine ⟨?_, ?_, ?_⟩
  · have h := (orbit_C6_amended_container_name_validation "bad name!" "/pk" 400
      (fun _ _ _ => .ok [])).1 (by decide)
    simpa using h
  · exact (orbit_C6_amended_container_name_validation "good-1" "/pk" 400
      (fun _ _ _ => .ok [])).2.1 (by decide)
  · exact (orbit_C6_amended_container_name_validation "abc" "/pk" 400
      (fun _ _ _ => .ok [])).2.2 (by decide)

/-- C3: the text output (log lines and error message) of the client
provider is independent of the secret material: two runs configured with
different connection strings whose transport calls end the same way
produce identical logs and identical results, whether both secrets are
usable (present and not blank) or both blank; and the no-secret and
blank-secret messages are the same fixed strings for every secret.  The
repository operations take no settings argument at all, so their output
cannot mention the secret. -/
theorem orbit_C3_output_independent_of_secret (s1 s2 : String)
    (c1 c2 : String → ConnectOutcome) :
    (pyBlank s1 = false → pyBlank s2 = false → c1 s1 = c2 s2 →
      ConnectionStringAuthStrategy.get_client (some s1) c1 =
        ConnectionStringAuthStrategy.get_client (some s2) c2) ∧
    (pyBlank s1 = true → pyBlank s2 = true →
      ConnectionStringAuthStrategy.get_client (some s1) c1 =
        ConnectionStringAuthStrategy.get_client (some s2) c2) ∧
    (pyBlank s1 = true →
      ConnectionStringAuthStrategy.get_client (some s1) c1 =
        ([], .error (.authFailure
          "Connection string is empty. Provide valid connection string."))) ∧
    (ConnectionStringAuthStrategy.get_client none c1 =
      ([], .error (.authFailure "Connection string not provided."))) := by
  refine ⟨fun h1 h2 hc => ?_, fun h1 h2 => ?_, fun h1 => ?_, rfl⟩
  · simp only [ConnectionStringAuthStrategy.get_client, h1, h2, hc,
      Bool.false_eq_true, if_false]
  · simp [ConnectionStringAuthStrategy.get_client, h1, h2]
  · simp [ConnectionStringAuthStrategy.get_client, h1]

/-- Witness for C3: two runs with the different secrets
`"AccountEndpoint=https://a;AccountKey=k1"` and
`"AccountEndpoint=https://b;AccountKey=k2"` whose transport succeeds
with the same handle produce identical output, and a whitespace-only
secret yields the fixed "empty" message. -/
theorem orbit_C3_output_independent_of_secret_witness :
    ConnectionStringAuthStrategy.get_client
      (some "AccountEndpoint=https://a;AccountKey=k1") (fun _ => .ok 0) =
      ConnectionStringAuthStrategy.get_client
        (some "AccountEndpoint=https://b;AccountKey=k2") (fun _ => .ok 0) ∧
    ConnectionStringAuthStrategy.get_client (some "  ") (fun _ => .ok 0) =
      ([], .error (.authFailure
        "Connection string is empty. Provide valid connection string.")) := by
  refine ⟨?_, ?_⟩
  · exact (orbit_C3_output_independent_of_secret
      "AccountEndpoint=https://a;AccountKey=k1"
      "AccountEndpoint=https://b;AccountKey=k2"
      (fun _ => .ok 0) (fun _ => .ok 0)).1 (by decide) (by decide) rfl
  · exact (orbit_C3_output_independent_of_secret "  " "x"
      (fun _ => .ok 0) (fun _ => .ok 0)).2.2.1 (by decide)

/-- C7: the connection-string strategy classifies every failure exactly
as the claim states — no connection string: `AuthFailure` ("not
provided"); blank connection string: `AuthFailure` ("empty"); parse
failure (`ValueError`): `AuthFailure` ("malformed"); transport status
401: `AuthFailure`; any other transport status: `ConnectionFailure`;
any other exception: `ConnectionFailure` when its lowercased message
contains "connection" or "network" (the code's reading of "indicates a
network/connectivity problem"), otherwise `AuthFailure` — and every
failure is one of `AuthFailure` or `ConnectionFailure`. -/
theorem orbit_C7_get_client_classification (cs : Option String)
    (connect : String → ConnectOutcome) :
    (cs = none →
      (ConnectionStringAuthStrategy.get_client cs connect).2 =
        .error (.authFailure "Connection string not provided.")) ∧
    (∀ s, cs = some s → pyBlank s = true →
      (ConnectionStringAuthStrategy.get_client cs connect).2 =
        .error (.authFailure
          "Connection string is empty. Provide valid connection string.")) ∧
    (∀ s m, cs = some s → pyBlank s = false → connect s = .valueError m →
      (ConnectionStringAuthStrategy.get_client cs connect).2 =
        .error (.authFailure ("Malformed connection string: " ++ m))) ∧
    (∀ s m, cs = some s → pyBlank s = false → connect s = .httpError 401 m →
      (ConnectionStringAuthStrategy.get_client cs connect).2 =
        .error (.authFailure
          "Authentication failed. Verify connection string credentials.")) ∧
    (∀ s st m, cs = some s → pyBlank s = false → connect s = .httpError st m →
      st ≠ 401 →
      (ConnectionStringAuthStrategy.get_client cs connect).2 =
        .error (.connectionFailure ("Failed to connect to Cosmos DB: " ++ m))) ∧
    (∀ s m, cs = some s → pyBlank s = false → connect s = .otherError m →
      msgIndicatesNetworkProblem m = true →
      (ConnectionStringAuthStrategy.get_client cs connect).2 =
        .error (.connectionFailure
          ("Network error connecting to Cosmos DB: " ++ m))) ∧
    (∀ s m, cs = some s → pyBlank s = false → connect s = .otherError m →
      msgIndicatesNetworkProblem m = false →
      (ConnectionStringAuthStrategy.get_client cs connect).2 =
        .error (.authFailure ("Unexpected error during authentication: " ++ m))) ∧
    (∀ e, (ConnectionStringAuthStrategy.get_client cs connect).2 = .error e →
      (∃ m, e = .authFailure m) ∨ (∃ m, e = .connectionFailure m)) := by
  refine ⟨fun h => ?_, fun s h hb => ?_, fun s m h hb hc => ?_,
    fun s m h hb hc => ?_, fun s st m h hb hc hne => ?_,
    fun s m h hb hc hnet => ?_, fun s m h hb hc hnet => ?_, fun e he => ?_⟩
  · subst h
    rfl
  · subst h
    simp [ConnectionStringAuthStrategy.get_client, hb]
  · subst h
    simp [ConnectionStringAuthStrategy.get_client, hb, hc]
  · subst h
    simp [ConnectionStringAuthStrategy.get_client, hb, hc]
  · subst h
    simp [ConnectionStringAuthStrategy.get_client, hb, hc, hne]
  · subst h
    simp [ConnectionStringAuthStrategy.get_client, hb, hc, hnet]
  · subst h
    simp [ConnectionStringAuthStrategy.get_client, hb, hc, hnet]
  · cases cs with
    | none =>
        simp [ConnectionStringAuthStrategy.get_client] at he
        subst he
        exact Or.inl ⟨_, rfl⟩
    | some s =>
        by_cases hb : pyBlank s
        · simp [ConnectionStringAuthStrategy.get_client, hb] at he
          subst he
          exact Or.inl ⟨_, rfl⟩
        · cases hc : connect s with
          | ok handle =>
              simp [ConnectionStringAuthStrategy.get_client, hb, hc] at he
          | valueError m =>
              simp [ConnectionStringAuthStrategy.get_client, hb, hc] at he
              subst he
              exact Or.inl ⟨_, rfl⟩
          | httpError st m =>
              by_cases h401 : st = 401
              · subst h401
                simp [ConnectionStringAuthStrategy.get_client, hb, hc] at he
                subst he
                exact Or.inl ⟨_, rfl⟩
              · simp [ConnectionStringAuthStrategy.get_client, hb, hc, h401] at he
                subst he
                exact Or.inr ⟨_, rfl⟩
          | otherError m =>
              by_cases hnet : msgIndicatesNetworkProblem m
              · simp [ConnectionStringAuthStrategy.get_client, hb, hc, hnet] at he
                subst he
                exact Or.inr ⟨_, rfl⟩
              · simp [ConnectionStringAuthStrategy.get_client, hb, hc, hnet] at he
                subst he
                exact Or.inl ⟨_, rfl⟩

/-- Witness for C7 at concrete inputs: a missing connection string, a
whitespace-only one, a parse failure, a 401, a 503, a network-flavoured
unclassified exception and a plain unclassified exception each map to
the stated error kind. -/
theorem orbit_C7_get_client_classification_witness :
    (ConnectionStringAuthStrategy.get_client none (fun _ => .ok 0)).2 =
      .error (.authFailure "Connection string not provided.") ∧
    (ConnectionStringAuthStrategy.get_client (some " ") (fun _ => .ok 0)).2 =
      .error (.authFailure
        "Connection string is empty. Provide valid connection string.") ∧
    (ConnectionStringAuthStrategy.get_client (some "cs")
        (fun _ => .valueError "bad format")).2 =
      .error (.authFailure "Malformed connection string: bad format") ∧
    (ConnectionStringAuthStrategy.get_client (some "cs")
        (fun _ => .httpError 401 "denied")).2 =
      .error (.authFailure
        "Authentication failed. Verify connection string credentials.") ∧
    (ConnectionStringAuthStrategy.get_client (some "cs")
        (fun _ => .httpError 503 "unavailable")).2 =
      .error (.connectionFailure "Failed to connect to Cosmos DB: unavailable") ∧
    (ConnectionStringAuthStrategy.get_client (some "cs")
        (fun _ => .otherError "Connection reset by peer")).2 =
      .error (.connectionFailure
        "Network error connecting to Cosmos DB: Connection reset by peer") ∧
    (ConnectionStringAuthStrategy.get_client (some "cs")
        (fun _ => .otherError "boom")).2 =
      .error (.authFailure "Unexpected error during authentication: boom") := by
  refine ⟨?_, ?_, ?_, ?_, ?_, ?_, ?_⟩
  · exact (orbit_C7_get_client_classification none (fun _ => .ok 0)).1 rfl
  · exact (orbit_C7_get_client_classification (some " ") (fun _ => .ok 0)).2.1
      " " rfl (by decide)
  · exact (orbit_C7_get_client_classification (some "cs")
      (fun _ => .valueError "bad format")).2.2.1 "cs" "bad format" rfl (by decide) rfl
  · exact (orbit_C7_get_client_classification (some "cs")
      (fun _ => .httpError 401 "denied")).2.2.2.1 "cs" "denied" rfl (by decide) rfl
  · exact (orbit_C7_get_client_classification (some "cs")
      (fun _ => .httpError 503 "unavailable")).2.2.2.2.1 "cs" 503 "unavailable"
      rfl (by decide) rfl (by decide)
  · exact (orbit_C7_get_client_classification (some "cs")
      (fun _ => .otherError "Connection reset by peer")).2.2.2.2.2.1 "cs"
      "Connection reset by peer" rfl (by decide) rfl (by decide)
  · exact (orbit_C7_get_client_classification (some "cs")
      (fun _ => .otherError "boom")).2.2.2.2.2.2.1 "cs" "boom" rfl (by decide)
      rfl (by decide)

/-- C5: one factory instance invokes the client provider exactly once
across repository requests: the first request creates and caches the
client handle, a later `get_item_repository` on the same factory reuses
the identical handle without another provider invocation, and a second
factory instance obtains a different (fresh) handle. -/
theorem orbit_C5_factory_client_caching (db db2 : String) (w : World)
    (h : db.isEmpty = false) (h2 : db2.isEmpty = false) :
    ∃ (repo1 repo2 repo3 : RepoObj) (st1 st2 st3 : FactoryState)
      (w1 w2 w3 : World),
      RepositoryFactory.get_container_repository
        (RepositoryFactory.init { database_name := some db }) w =
        (.ok repo1, st1, w1) ∧
      w1.providerCalls = w.providerCalls + 1 ∧
      st1.client = some repo1.client ∧
      RepositoryFactory.get_item_repository st1 w1 = (.ok repo2, st2, w2) ∧
      w2.providerCalls = w1.providerCalls ∧
      repo2.client = repo1.client ∧
      RepositoryFactory.get_container_repository
        (RepositoryFactory.init { database_name := some db2 }) w2 =
        (.ok repo3, st3, w3) ∧
      repo3.client ≠ repo1.client := by
  refine ⟨⟨w.nextId + 1, w.nextId, db⟩, ⟨w.nextId + 2, w.nextId, db⟩,
    ⟨w.nextId + 4, w.nextId + 3, db2⟩,
    ⟨some db, some w.nextId⟩, ⟨some db, some w.nextId⟩,
    ⟨some db2, some (w.nextId + 3)⟩,
    ⟨w.nextId + 2, w.providerCalls + 1⟩, ⟨w.nextId + 3, w.providerCalls + 1⟩,
    ⟨w.nextId + 5, w.providerCalls + 2⟩, ?_, rfl, rfl, ?_, rfl, rfl, ?_, ?_⟩
  · simp [RepositoryFactory.get_container_repository,
      RepositoryFactory.get_client_cached, RepositoryFactory.init,
      World.invokeProvider, World.alloc, pyFalsy, h]
  · simp [RepositoryFactory.get_item_repository,
      RepositoryFactory.get_client_cached,
      World.invokeProvider, World.alloc, pyFalsy, h]
  · simp [RepositoryFactory.get_container_repository,
      RepositoryFactory.get_client_cached, RepositoryFactory.init,
      World.invokeProvider, World.alloc, pyFalsy, h2]
  · simp only [ne_eq, RepoObj.mk.injEq]
    omega

/-- Witness for C5 at database names `"test-db"` and `"prod-db"` and the
initial allocation state. -/
theorem orbit_C5_factory_client_caching_witness :
    ∃ (repo1 repo2 repo3 : RepoObj) (st1 st2 st3 : FactoryState)
      (w1 w2 w3 : World),
      RepositoryFactory.get_container_repository
        (RepositoryFactory.init { database_name := some "test-db" }) ⟨0, 0⟩ =
        (.ok repo1, st1, w1) ∧
      w1.providerCalls = (⟨0, 0⟩ : World).providerCalls + 1 ∧
      st1.client = some repo1.client ∧
      RepositoryFactory.get_item_repository st1 w1 = (.ok repo2, st2, w2) ∧
      w2.providerCalls = w1.providerCalls ∧
      repo2.client = repo1.client ∧
      RepositoryFactory.get_container_repository
        (RepositoryFactory.init { database_name := some "prod-db" }) w2 =
        (.ok repo3, st3, w3) ∧
      repo3.client ≠ repo1.client :=
  orbit_C5_factory_client_caching "test-db" "prod-db" ⟨0, 0⟩
    (by decide) (by decide)

/-- C10: every repository request constructs a fresh repository object —
two consecutive `get_container_repository` calls on one factory return
repositories with distinct object identities, the same cached client
handle, and the same database name. -/
theorem orbit_C10_fresh_repository_instances (db : String) (w : World)
    (h : db.isEmpty = false) :
    ∃ (repo1 repo2 : RepoObj) (st1 st2 : FactoryState) (w1 w2 : World),
      RepositoryFactory.get_container_repository
        (RepositoryFactory.init { database_name := some db }) w =
        (.ok repo1, st1, w1) ∧
      RepositoryFactory.get_container_repository st1 w1 =
        (.ok repo2, st2, w2) ∧
      repo1.objId ≠ repo2.objId ∧
      repo1.client = repo2.client ∧
      repo1.databaseName = repo2.databaseName := by
  refine ⟨⟨w.nextId + 1, w.nextId, db⟩, ⟨w.nextId + 2, w.nextId, db⟩,
    ⟨some db, some w.nextId⟩, ⟨some db, some w.nextId⟩,
    ⟨w.nextId + 2, w.providerCalls + 1⟩, ⟨w.nextId + 3, w.providerCalls + 1⟩,
    ?_, ?_, ?_, rfl, rfl⟩
  · simp [RepositoryFactory.get_container_repository,
      RepositoryFactory.get_client_cached, RepositoryFactory.init,
      World.invokeProvider, World.alloc, pyFalsy, h]
  · simp [RepositoryFactory.get_container_repository,
      RepositoryFactory.get_client_cached,
      World.invokeProvider, World.alloc, pyFalsy, h]
  · simp only [ne_eq]
    omega

/-- Witness for C10 at database name `"test-db"` and the initial
allocation state. -/
theorem orbit_C10_fresh_repository_instances_witness :
    ∃ (repo1 repo2 : RepoObj) (st1 st2 : FactoryState) (w1 w2 : World),
      RepositoryFactory.get_container_repository
        (RepositoryFactory.init { database_name := some "test-db" }) ⟨0, 0⟩ =
        (.ok repo1, st1, w1) ∧
      RepositoryFactory.get_container_repository st1 w1 =
        (.ok repo2, st2, w2) ∧
      repo1.objId ≠ repo2.objId ∧
      repo1.client = repo2.client ∧
      repo1.databaseName = repo2.databaseName :=
  orbit_C10_fresh_repository_instances "test-db" ⟨0, 0⟩ (by decide)

/-- C8 fails on the code: the `OrbitSettings` dataclass of
`src/orbit/config.py` declares no `database_name` field, although the
spec's Settings carries one and `RepositoryFactory.__init__`
(`factory.py` line 46) reads `settings.database_name`, so constructing a
factory from the settings object the code actually defines raises
`AttributeError` rather than reaching the database-name check. -/
theorem orbit_C8_settings_database_name_field_missing :
    "database_name" ∈ settingsSpecFields ∧
    "database_name" ∉ orbitSettingsFields := by
  decide
